import Mathlib

/-!
Verification of the dynamic-schema extraction pipeline of the
PDF-Image-TO-Json repository (source files `api.py` and `main.py`).

The Python values that flow through the pipeline (schema descriptions
decoded from JSON) are embedded as the inductive family `SVal` /
`SFields` / `SElems`; the pydantic models produced by the two schema
builders are embedded as the family `FieldTy` / `FieldDef` /
`FieldList` / `RecordDef`.  The two request surfaces (`/extract`
endpoint of `api.py`, `main()` of `main.py`) are embedded as pure
functions over an oracle modelling the LLM collaborator, returning a
result together with the trace of LLM invocations that were issued.
-/

/-- Single-quote character, written by code point to keep source lines plain. -/
def squote : Char := Char.ofNat 39

/-- Single-quote character as a one-character string. -/
def squoteStr : String := String.singleton squote

/-- Opening curly brace character. -/
def lbrace : Char := Char.ofNat 123

/-- Closing curly brace character. -/
def rbrace : Char := Char.ofNat 125

/-- Python `s.lower()`, character-wise. -/
def pyLower (s : String) : String := String.mk (s.data.map Char.toLower)

/-- Python `s.strip()`: drop whitespace from both ends. -/
def pyStrip (s : String) : String :=
  String.mk (((s.data.dropWhile Char.isWhitespace).reverse.dropWhile Char.isWhitespace).reverse)

/-- The scalar Python types that the type maps of `api.py` (line 19) and
`main.py` (line 54) can produce: `int`, `float`, `list`, `str`. -/
inductive PrimTy where
  | int
  | float
  | list
  | str
deriving DecidableEq

mutual
/-- A Python value as decoded from JSON by `json.loads`: a string, an
integer, a boolean, `None`, a dict with string keys, or a list.
(Fractional JSON numbers are outside this model; no claim involves them.) -/
inductive SVal where
  | prim (s : String)
  | num (n : Int)
  | bool (b : Bool)
  | null
  | dict (fs : SFields)
  | arr (es : SElems)

/-- The key/value pairs of a dict, in insertion order. -/
inductive SFields where
  | nil
  | cons (k : String) (v : SVal) (rest : SFields)

/-- The elements of a list, in order. -/
inductive SElems where
  | nil
  | cons (v : SVal) (rest : SElems)
end

mutual
/-- Python `str(v)` for the values an `SVal` can denote (`str` of a string
is the string itself; containers render their elements with `repr`). -/
def pyStr : SVal → String
  | SVal.prim s => s
  | SVal.num n => toString n
  | SVal.bool b => if b then "True" else "False"
  | SVal.null => "None"
  | SVal.dict fs => String.singleton lbrace ++ pyReprFields fs ++ String.singleton rbrace
  | SVal.arr es => "[" ++ pyReprElems es ++ "]"

/-- Python `repr(v)` (strings quoted with single quotes; quote-escaping
edge cases inside strings are outside this model). -/
def pyRepr : SVal → String
  | SVal.prim s => squoteStr ++ s ++ squoteStr
  | SVal.num n => toString n
  | SVal.bool b => if b then "True" else "False"
  | SVal.null => "None"
  | SVal.dict fs => String.singleton lbrace ++ pyReprFields fs ++ String.singleton rbrace
  | SVal.arr es => "[" ++ pyReprElems es ++ "]"

/-- `repr` of the members of a dict, comma separated. -/
def pyReprFields : SFields → String
  | SFields.nil => ""
  | SFields.cons k v SFields.nil => squoteStr ++ k ++ squoteStr ++ ": " ++ pyRepr v
  | SFields.cons k v rest => squoteStr ++ k ++ squoteStr ++ ": " ++ pyRepr v ++ ", " ++ pyReprFields rest

/-- `repr` of the elements of a list, comma separated. -/
def pyReprElems : SElems → String
  | SElems.nil => ""
  | SElems.cons v SElems.nil => pyRepr v
  | SElems.cons v rest => pyRepr v ++ ", " ++ pyReprElems rest
end

/-- The type-token lookup of `api.py` line 19:
`{"int": int, "float": float, "list": list}.get(str(v).lower(), str)`,
applied here to the already-stringified token. -/
def resolveToken (t : String) : PrimTy :=
  let l := pyLower t
  if l = "int" then PrimTy.int
  else if l = "float" then PrimTy.float
  else if l = "list" then PrimTy.list
  else PrimTy.str

/-- The interactive type lookup of `main.py` lines 53-60: the raw console
answer is stripped and lowercased, then looked up in
a four-entry map keyed by "str", "int", "float" and "list", defaulting to
`str` for anything not in the map. -/
def interactiveResolve (answer : String) : PrimTy :=
  let l := pyLower (pyStrip answer)
  if l = "str" then PrimTy.str
  else if l = "int" then PrimTy.int
  else if l = "float" then PrimTy.float
  else if l = "list" then PrimTy.list
  else PrimTy.str

mutual
/-- The resolved type of a pydantic model field: a scalar, a nested model,
or a typed list of a nested model. -/
inductive FieldTy where
  | scalar (p : PrimTy)
  | record (r : RecordDef)
  | listOf (r : RecordDef)

/-- One pydantic field as passed to `create_model`: its (possibly
`Optional`-wrapped) type, whether it is wrapped in `Optional`, whether its
`Field(...)` carries `default=None`, and its `Field(...)` description. -/
inductive FieldDef where
  | mk (ty : FieldTy) (optional : Bool) (defaultNone : Bool) (description : String)

/-- Named fields of a model, in insertion order. -/
inductive FieldList where
  | nil
  | cons (k : String) (fd : FieldDef) (rest : FieldList)

/-- A dynamically created pydantic model: its name and its fields. -/
inductive RecordDef where
  | mk (name : String) (fields : FieldList)
end

/-- The name of a dynamically created model. -/
def recName : RecordDef → String
  | RecordDef.mk n _ => n

/-- The fields of a dynamically created model. -/
def recFieldList : RecordDef → FieldList
  | RecordDef.mk _ fs => fs

/-- The resolved type component of a field. -/
def fieldTyOf : FieldDef → FieldTy
  | FieldDef.mk ty _ _ _ => ty

/-- The name of the nested model a field points at, if any. -/
def nestedName : FieldDef → Option String
  | FieldDef.mk (FieldTy.record r) _ _ _ => some (recName r)
  | FieldDef.mk (FieldTy.listOf r) _ _ _ => some (recName r)
  | FieldDef.mk (FieldTy.scalar _) _ _ _ => none

mutual
/-- The loop body of `build_schema` (`api.py` lines 13-20): one output
field per input pair, in insertion order. -/
def buildFields (name : String) (schema_dict : SFields) : FieldList :=
  match schema_dict with
  | SFields.nil => FieldList.nil
  | SFields.cons k v rest => FieldList.cons k (buildField name k v) (buildFields name rest)
termination_by structural schema_dict

/-- The per-field dispatch of `build_schema`: a dict value becomes an
`Optional` nested model named `name_k`; a non-empty list whose first
element is a dict becomes an `Optional[List[...]]` of a nested model named
`name_k_i`; everything else goes through the type-token lookup on
`str(v).lower()`. -/
def buildField (name k : String) (v : SVal) : FieldDef :=
  match v with
  | SVal.dict fs =>
      FieldDef.mk (FieldTy.record (RecordDef.mk (name ++ "_" ++ k) (buildFields (name ++ "_" ++ k) fs)))
        true true ("Ext " ++ k)
  | SVal.arr (SElems.cons (SVal.dict fs) _) =>
      FieldDef.mk
        (FieldTy.listOf (RecordDef.mk (name ++ "_" ++ k ++ "_i") (buildFields (name ++ "_" ++ k ++ "_i") fs)))
        true true ("Ext list " ++ k)
  | v => FieldDef.mk (FieldTy.scalar (resolveToken (pyStr v))) true true ("Ext " ++ k)
termination_by structural v
end

/-- `build_schema` of `api.py` lines 11-21: recursively turn a schema
dict into a pydantic model named `name` (default `"Ext"`); the recursive
calls go through `buildField`, which rebuilds the nested models with
`buildFields` under the derived names. -/
def build_schema (schema_dict : SFields) (name : String := "Ext") : RecordDef :=
  RecordDef.mk name (buildFields name schema_dict)

/-- One entry of the `fields_config` dict consumed by
`create_dynamic_schema` of `main.py`: the optional "type" entry (a
Python type object) and the optional "description" entry. -/
structure FieldCfg where
  type? : Option PrimTy
  description? : Option String

/-- The loop body of `create_dynamic_schema` (`main.py` lines 21-25):
a pair of the "type" entry (default `str`) and a `Field` whose description
is the "description" entry (default the empty string) —
the type is not wrapped in `Optional` and the `Field` has no default. -/
def create_dynamic_fields : List (String × FieldCfg) → FieldList
  | [] => FieldList.nil
  | (k, fi) :: rest =>
      FieldList.cons k
        (FieldDef.mk (FieldTy.scalar (fi.type?.getD PrimTy.str)) false false
          (fi.description?.getD ""))
        (create_dynamic_fields rest)

/-- `create_dynamic_schema` of `main.py` lines 10-27. -/
def create_dynamic_schema (fields_config : List (String × FieldCfg)) : RecordDef :=
  RecordDef.mk "DynamicExtraction" (create_dynamic_fields fields_config)

mutual
/-- Checks, over a whole model tree, the property claimed of every built
field: wrapped in `Optional`, `default=None`, and description `"Ext k"`
(for mapping and primitive fields) or `"Ext list k"` (for list fields). -/
def recordOk : RecordDef → Bool
  | RecordDef.mk _ fs => fieldListOk fs

/-- `recordOk` over a field list. -/
def fieldListOk : FieldList → Bool
  | FieldList.nil => true
  | FieldList.cons k fd rest => fieldOk k fd && fieldListOk rest

/-- `recordOk` for one field named `k`. -/
def fieldOk (k : String) : FieldDef → Bool
  | FieldDef.mk ty opt defN desc =>
      opt && defN &&
        (match ty with
         | FieldTy.scalar _ => desc == "Ext " ++ k
         | FieldTy.record r => (desc == "Ext " ++ k) && recordOk r
         | FieldTy.listOf r => (desc == "Ext list " ++ k) && recordOk r)
end

/-- Whitespace recognised by the JSON grammar. -/
def jsonWs (c : Char) : Bool := c = ' ' || c = '\n' || c = '\t' || c = '\r'

/-- Drop leading JSON whitespace. -/
def skipWs : List Char → List Char
  | [] => []
  | c :: rest => if jsonWs c then skipWs rest else c :: rest

/-- Parse the body of a JSON string literal (the opening quote already
consumed), returning the decoded string and the remaining input.
`\uXXXX` escapes are outside this model; no claim involves them. -/
def parseStringBody : List Char → Option (String × List Char)
  | [] => none
  | c :: rest =>
    if c = '"' then some ("", rest)
    else if c = '\\' then
      match rest with
      | [] => none
      | e :: rest2 =>
        let dec : Option Char :=
          if e = '"' then some '"'
          else if e = '\\' then some '\\'
          else if e = '/' then some '/'
          else if e = 'n' then some '\n'
          else if e = 't' then some '\t'
          else if e = 'r' then some '\r'
          else if e = 'b' then some (Char.ofNat 8)
          else if e = 'f' then some (Char.ofNat 12)
          else none
        match dec with
        | none => none
        | some d =>
          match parseStringBody rest2 with
          | some (s, r) => some (String.singleton d ++ s, r)
          | none => none
    else
      match parseStringBody rest with
      | some (s, r) => some (String.singleton c ++ s, r)
      | none => none

/-- Digits to a natural number, most significant first. -/
def digitsToNat (ds : List Char) : Nat :=
  ds.foldl (fun n c => n * 10 + (c.toNat - 48)) 0

/-- Parse a JSON integer (fractional and exponent forms are outside this
model; no claim involves them). -/
def parseNum (cs : List Char) : Option (Int × List Char) :=
  let core : List Char → Option (Nat × List Char) := fun l =>
    match l.span (fun c => c.isDigit) with
    | ([], _) => none
    | (ds, r) =>
      match r with
      | '.' :: _ => none
      | 'e' :: _ => none
      | 'E' :: _ => none
      | _ => some (digitsToNat ds, r)
  match cs with
  | '-' :: rest =>
    match core rest with
    | some (n, r) => some (-(n : Int), r)
    | none => none
  | _ =>
    match core cs with
    | some (n, r) => some ((n : Int), r)
    | none => none

mutual
/-- Recursive-descent JSON value parser modelling `json.loads`, with a
fuel argument bounding recursion depth. -/
def parseVal : Nat → List Char → Option (SVal × List Char)
  | 0, _ => none
  | Nat.succ fuel, cs =>
    match skipWs cs with
    | [] => none
    | c :: rest =>
      if c = '"' then
        match parseStringBody rest with
        | some (s, r) => some (SVal.prim s, r)
        | none => none
      else if c = lbrace then
        match skipWs rest with
        | [] => none
        | c2 :: r2 =>
          if c2 = rbrace then some (SVal.dict SFields.nil, r2)
          else
            match parseMembers fuel (c2 :: r2) with
            | some (fs, r3) => some (SVal.dict fs, r3)
            | none => none
      else if c = '[' then
        match skipWs rest with
        | [] => none
        | c2 :: r2 =>
          if c2 = ']' then some (SVal.arr SElems.nil, r2)
          else
            match parseElems fuel (c2 :: r2) with
            | some (es, r3) => some (SVal.arr es, r3)
            | none => none
      else if ['t', 'r', 'u', 'e'].isPrefixOf (c :: rest) then
        some (SVal.bool true, (c :: rest).drop 4)
      else if ['f', 'a', 'l', 's', 'e'].isPrefixOf (c :: rest) then
        some (SVal.bool false, (c :: rest).drop 5)
      else if ['n', 'u', 'l', 'l'].isPrefixOf (c :: rest) then
        some (SVal.null, (c :: rest).drop 4)
      else
        match parseNum (c :: rest) with
        | some (n, r) => some (SVal.num n, r)
        | none => none

/-- Parse the members of a JSON object, positioned at the first character
of a key; consumes the closing brace. -/
def parseMembers : Nat → List Char → Option (SFields × List Char)
  | 0, _ => none
  | Nat.succ fuel, cs =>
    match cs with
    | [] => none
    | c :: rest =>
      if c = '"' then
        match parseStringBody rest with
        | some (k, r1) =>
          match skipWs r1 with
          | ':' :: r2 =>
            match parseVal fuel r2 with
            | some (v, r3) =>
              match skipWs r3 with
              | [] => none
              | c4 :: r4 =>
                if c4 = ',' then
                  match parseMembers fuel (skipWs r4) with
                  | some (fs, r5) => some (SFields.cons k v fs, r5)
                  | none => none
                else if c4 = rbrace then some (SFields.cons k v SFields.nil, r4)
                else none
            | none => none
          | _ => none
        | none => none
      else none

/-- Parse the elements of a JSON array, positioned at the first character
of an element; consumes the closing bracket. -/
def parseElems : Nat → List Char → Option (SElems × List Char)
  | 0, _ => none
  | Nat.succ fuel, cs =>
    match parseVal fuel cs with
    | some (v, r1) =>
      match skipWs r1 with
      | ',' :: r2 =>
        match parseElems fuel r2 with
        | some (es, r3) => some (SElems.cons v es, r3)
        | none => none
      | ']' :: r2 => some (SElems.cons v SElems.nil, r2)
      | _ => none
    | none => none
end

/-- `json.loads` modelled for the inputs this repository feeds it: parse
one JSON value and require only whitespace after it. -/
def jsonParse (s : String) : Option SVal :=
  match parseVal (s.length + 2) s.data with
  | some (v, rest) => if skipWs rest = [] then some v else none
  | none => none

/-- The quote replacement of `api.py` line 33: every single-quote
character becomes a double quote (single-character `str.replace` is a
character-wise map). -/
def quoteFix (s : String) : String :=
  String.mk (s.data.map (fun c => if c = squote then '"' else c))

/-- The default value of the `schema` form field (`api.py` line 29). -/
def defaultSchemaStr : String :=
  "\x7b\"vendor\": \"str\", \"items\": [\x7b\"name\": \"str\", \"price\": \"float\"\x7d]\x7d"

/-- The schema dict the default form value decodes to. -/
def defaultSchemaDict : SFields :=
  SFields.cons "vendor" (SVal.prim "str")
    (SFields.cons "items"
      (SVal.arr (SElems.cons
        (SVal.dict (SFields.cons "name" (SVal.prim "str")
          (SFields.cons "price" (SVal.prim "float") SFields.nil)))
        SElems.nil))
      SFields.nil)

/-- The prompt built by the `/extract` endpoint (`api.py` lines 44-51),
with the extracted document text spliced in. -/
def apiPrompt (text : String) : String :=
  "SYSTEM: You are a strict data extractor. ONLY extract information that is explicitly present in the provided text. " ++
  "If a piece of information is not found in the text, DO NOT make it up. DO NOT hallucinate. " ++
  "If the schema requires a field that is missing from the text, use null or an empty value as appropriate for the type. " ++
  "Strictly follow the source text.\n\n" ++
  "Source Text:\n" ++ text ++ "\n\n" ++
  "Extract the following data based on the source text above."

/-- The prompt built by `extract_json_from_text` (`main.py` line 123). -/
def cliPrompt (text : String) : String :=
  "Extract data from the following text:\n\n" ++ text

/-- Outcome of one `structured_llm.invoke(...)` round trip, as seen by the
caller: a validated instance, a pydantic `ValidationError`, or any other
exception (transport, auth, rate limit, ...), each carrying its message. -/
inductive LlmResult (α : Type) where
  | ok (a : α)
  | validationError (msg : String)
  | otherError (msg : String)

/-- A request to the `/extract` endpoint after the collaborators ran: the
uploaded filename, the text PyMuPDF extracts from the uploaded bytes, and
the raw `schema` form field (`none` when omitted, in which case FastAPI
substitutes the declared default string). -/
structure ApiReq where
  filename : String
  fileText : String
  schema? : Option String

/-- The HTTP-visible result of the endpooint. -/
inductive ApiResult (α : Type) where
  | clientError (code : Nat) (msg : String)
  | serverError (code : Nat) (msg : String)
  | ok (a : α)
deriving DecidableEq

/-- One run of the endpoint: its result, the pydantic model built from the
schema (if the run got that far), and the trace of LLM invocations issued
(prompt paired with the model constraining the output). -/
structure ApiRun (α : Type) where
  result : ApiResult α
  builtSchema : Option RecordDef
  llmCalls : List (String × RecordDef)

/-- Python `str(e)` of the `AttributeError` raised when `build_schema`
iterates a non-dict (`json.loads` may return any JSON value). -/
def pyTypeName : SVal → String
  | SVal.prim _ => "str"
  | SVal.num _ => "int"
  | SVal.bool _ => "bool"
  | SVal.null => "NoneType"
  | SVal.dict _ => "dict"
  | SVal.arr _ => "list"

/-- The `/extract` endpoint of `api.py` lines 26-54, parameterised by the
`json.loads` collaborator and the LLM oracle.  Steps in source order:
non-PDF filename check (on the lowercased name), quote replacement plus
JSON decoding of the schema string, empty-extracted-text check, then one
`llm.invoke` constrained by `build_schema(s_dict)`; every exception inside
the `try` block resurfaces as `HTTPException(500, str(e))`. -/
def apiExtract {α : Type} (jloads : String → Option SVal)
    (llm : String → RecordDef → LlmResult α) (req : ApiReq) : ApiRun α :=
  if !(['.', 'p', 'd', 'f'].isSuffixOf (pyLower req.filename).data) then
    ⟨ApiResult.clientError 400 "Only PDF supported", none, []⟩
  else
    let schemaStr := req.schema?.getD defaultSchemaStr
    match jloads (quoteFix schemaStr) with
    | none => ⟨ApiResult.clientError 400 ("Invalid JSON: " ++ schemaStr), none, []⟩
    | some sv =>
      if pyStrip req.fileText = "" then ⟨ApiResult.clientError 422 "No text found", none, []⟩
      else
        match sv with
        | SVal.dict fs =>
          let model := build_schema fs
          let prompt := apiPrompt req.fileText
          match llm prompt model with
          | LlmResult.ok a => ⟨ApiResult.ok a, some model, [(prompt, model)]⟩
          | LlmResult.validationError m =>
              ⟨ApiResult.serverError 500 m, some model, [(prompt, model)]⟩
          | LlmResult.otherError m =>
              ⟨ApiResult.serverError 500 m, some model, [(prompt, model)]⟩
        | v =>
          ⟨ApiResult.serverError 500
            (squoteStr ++ pyTypeName v ++ squoteStr ++ " object has no attribute " ++
              squoteStr ++ "items" ++ squoteStr), none, []⟩

/-- The error raised by `extract_json_from_text` (`main.py` lines 126-129):
a `ValueError` for a pydantic `ValidationError`, a plain `Exception`
otherwise. -/
inductive CliError where
  | valueError (msg : String)
  | exception (msg : String)
deriving DecidableEq

/-- `extract_json_from_text` of `main.py` lines 103-129: one LLM round
trip on the CLI prompt; a `ValidationError` is re-raised as
`ValueError("Data validation error: ...")`, any other failure as
`Exception("Error during LLM extraction: ...")`. -/
def extract_json_from_text {α : Type} (llm : String → RecordDef → LlmResult α)
    (text : String) (model : RecordDef) : Except CliError α :=
  match llm (cliPrompt text) model with
  | LlmResult.ok a => Except.ok a
  | LlmResult.validationError m => Except.error (CliError.valueError ("Data validation error: " ++ m))
  | LlmResult.otherError m => Except.error (CliError.exception ("Error during LLM extraction: " ++ m))

/-- Failure of `extract_text_from_pdf` (`main.py` lines 70-100): a
`FileNotFoundError` for a missing path, otherwise the wrapped
`Exception("Error reading PDF: ...")`. -/
inductive PdfErr where
  | notFound (msg : String)
  | readError (msg : String)

/-- The outcome `main()` reports (`main.py` lines 155-199). -/
inductive CliOutcome (α : Type) where
  | noFields
  | fileNotFound (msg : String)
  | configError (msg : String)
  | unexpectedError (msg : String)
  | done (a : α)

/-- The message `main()` prints for each outcome (`done` prints the JSON
payload instead). -/
def cliMessageOf {α : Type} : CliOutcome α → Option String
  | CliOutcome.noFields => some "\n⚠ No fields defined. Exiting."
  | CliOutcome.fileNotFound m => some ("\n✗ Error: " ++ m)
  | CliOutcome.configError m => some ("\n✗ Configuration Error: " ++ m)
  | CliOutcome.unexpectedError m => some ("\n✗ Unexpected Error: " ++ m)
  | CliOutcome.done _ => none

/-- One run of the interactive surface: its outcome, the pydantic model
built (if the run got that far), and the trace of LLM invocations. -/
structure CliRun (α : Type) where
  outcome : CliOutcome α
  builtSchema : Option RecordDef
  llmCalls : List (String × RecordDef)

/-- `main()` of `main.py` lines 155-199, parameterised by the LLM oracle,
the interactively collected field configuration, and the PDF-extraction
answer of the collaborator.  Steps in source order: empty-config short circuit
("No fields defined"), `create_dynamic_schema`, text extraction, then
`extract_json_from_text`; `FileNotFoundError` and `ValueError` get their
own handlers, anything else falls to the generic handler.  There is no
emptiness check on the extracted text. -/
def mainRun {α : Type} (llm : String → RecordDef → LlmResult α)
    (fields_config : List (String × FieldCfg)) (fileText : Except PdfErr String) : CliRun α :=
  if fields_config.isEmpty then ⟨CliOutcome.noFields, none, []⟩
  else
    let model := create_dynamic_schema fields_config
    match fileText with
    | Except.error (PdfErr.notFound m) => ⟨CliOutcome.fileNotFound m, some model, []⟩
    | Except.error (PdfErr.readError m) => ⟨CliOutcome.unexpectedError m, some model, []⟩
    | Except.ok text =>
      let outcome :=
        match extract_json_from_text llm text model with
        | Except.ok a => CliOutcome.done a
        | Except.error (CliError.valueError m) => CliOutcome.configError m
        | Except.error (CliError.exception m) => CliOutcome.unexpectedError m
      ⟨outcome, some model, [(cliPrompt text, model)]⟩

mutual
/-- Maximum record depth contributed by the values of a description. -/
def sfieldsDepth (fs : SFields) : Nat :=
  match fs with
  | SFields.nil => 0
  | SFields.cons _ v rest => max (svalDepth v) (sfieldsDepth rest)
termination_by structural fs

/-- Record depth a single value gives rise to, mirroring the dispatch of
`build_schema`: a dict nests, a list with a dict first element nests via
that element, everything else is flat. -/
def svalDepth (v : SVal) : Nat :=
  match v with
  | SVal.dict fs => 1 + sfieldsDepth fs
  | SVal.arr (SElems.cons (SVal.dict fs) _) => 1 + sfieldsDepth fs
  | _ => 0
termination_by structural v
end

/-- Nesting depth of a schema description: the description itself is one
record level, plus the deepest record level its values give rise to. -/
def descDepth (fs : SFields) : Nat := 1 + sfieldsDepth fs

mutual
/-- Maximum nested-record depth among a field list. -/
def fieldListDepth (fs : FieldList) : Nat :=
  match fs with
  | FieldList.nil => 0
  | FieldList.cons _ fd rest => max (fieldDepth fd) (fieldListDepth rest)
termination_by structural fs

/-- Nested-record depth of one field: a scalar is flat, a nested model (or
list of nested models) contributes one level plus its own fields. -/
def fieldDepth (fd : FieldDef) : Nat :=
  match fd with
  | FieldDef.mk (FieldTy.scalar _) _ _ _ => 0
  | FieldDef.mk (FieldTy.record (RecordDef.mk _ fs)) _ _ _ => 1 + fieldListDepth fs
  | FieldDef.mk (FieldTy.listOf (RecordDef.mk _ fs)) _ _ _ => 1 + fieldListDepth fs
termination_by structural fd
end

/-- Nesting depth of a built model: one for the record itself plus the
deepest nested record among its fields. -/
def recDepth : RecordDef → Nat
  | RecordDef.mk _ fs => 1 + fieldListDepth fs

/-- `sub` occurs contiguously inside `s`. -/
def strContains (s sub : String) : Prop :=
  ∃ a b : List Char, s.data = a ++ (sub.data ++ b)

/-- The single-quoted pseudo-JSON schema string used as a concrete test
input: an open brace, then vendor and str each wrapped in single quotes,
then a close brace. -/
def sqVendorSchema : String :=
  "\x7b" ++ squoteStr ++ "vendor" ++ squoteStr ++ ": " ++ squoteStr ++ "str" ++ squoteStr ++ "\x7d"

/-- A well-formed JSON schema string whose value carries a legitimate
apostrophe: an object mapping the key note to the text it+apostrophe+s. -/
def aposSchema : String :=
  "\x7b\"note\": \"it" ++ squoteStr ++ "s\"\x7d"

theorem strData_append (s t : String) : (s ++ t).data = s.data ++ t.data := by
  cases s
  cases t
  rfl

theorem strEq_of_data {s t : String} (h : s.data = t.data) : s = t := by
  cases s
  cases t
  exact congrArg String.mk h

theorem strAppend_left_cancel {a b c : String} (h : a ++ b = a ++ c) : b = c := by
  apply strEq_of_data
  have hd := congrArg String.data h
  rw [strData_append, strData_append] at hd
  exact List.append_cancel_left hd

theorem strAppend_right_cancel {a b c : String} (h : a ++ c = b ++ c) : a = b := by
  apply strEq_of_data
  have hd := congrArg String.data h
  rw [strData_append, strData_append] at hd
  exact List.append_cancel_right hd

theorem strContains_of_parts (s sub : String) (a b : List Char)
    (h : s.data = a ++ (sub.data ++ b)) : strContains s sub :=
  ⟨a, b, h⟩

mutual
theorem fieldListOk_build (name : String) (fs : SFields) :
    fieldListOk (buildFields name fs) = true :=
  match fs with
  | SFields.nil => rfl
  | SFields.cons k v rest => by
      have h1 := fieldOk_build name k v
      have h2 := fieldListOk_build name rest
      simp [buildFields, fieldListOk, h1, h2]
termination_by structural fs

theorem fieldOk_build (name k : String) (v : SVal) :
    fieldOk k (buildField name k v) = true :=
  match v with
  | SVal.dict fs => by
      have h := fieldListOk_build (name ++ "_" ++ k) fs
      simp [buildField, fieldOk, recordOk, h]
  | SVal.arr (SElems.cons (SVal.dict fs) rest) => by
      have h := fieldListOk_build (name ++ "_" ++ k ++ "_i") fs
      simp [buildField, fieldOk, recordOk, h]
  | SVal.prim s => by simp [buildField, fieldOk]
  | SVal.num n => by simp [buildField, fieldOk]
  | SVal.bool b => by simp [buildField, fieldOk]
  | SVal.null => by simp [buildField, fieldOk]
  | SVal.arr SElems.nil => by simp [buildField, fieldOk]
  | SVal.arr (SElems.cons (SVal.prim s) rest) => by simp [buildField, fieldOk]
  | SVal.arr (SElems.cons (SVal.num n) rest) => by simp [buildField, fieldOk]
  | SVal.arr (SElems.cons (SVal.bool b) rest) => by simp [buildField, fieldOk]
  | SVal.arr (SElems.cons SVal.null rest) => by simp [buildField, fieldOk]
  | SVal.arr (SElems.cons (SVal.arr es) rest) => by simp [buildField, fieldOk]
termination_by structural v
end

mutual
theorem fieldListDepth_build (name : String) (fs : SFields) :
    fieldListDepth (buildFields name fs) = sfieldsDepth fs :=
  match fs with
  | SFields.nil => rfl
  | SFields.cons k v rest => by
      have h1 := fieldDepth_build name k v
      have h2 := fieldListDepth_build name rest
      simp [buildFields, fieldListDepth, sfieldsDepth, h1, h2]
termination_by structural fs

theorem fieldDepth_build (name k : String) (v : SVal) :
    fieldDepth (buildField name k v) = svalDepth v :=
  match v with
  | SVal.dict fs => by
      have h := fieldListDepth_build (name ++ "_" ++ k) fs
      simp [buildField, fieldDepth, svalDepth, h]
  | SVal.arr (SElems.cons (SVal.dict fs) rest) => by
      have h := fieldListDepth_build (name ++ "_" ++ k ++ "_i") fs
      simp [buildField, fieldDepth, svalDepth, h]
  | SVal.prim s => by simp [buildField, fieldDepth, svalDepth]
  | SVal.num n => by simp [buildField, fieldDepth, svalDepth]
  | SVal.bool b => by simp [buildField, fieldDepth, svalDepth]
  | SVal.null => by simp [buildField, fieldDepth, svalDepth]
  | SVal.arr SElems.nil => by simp [buildField, fieldDepth, svalDepth]
  | SVal.arr (SElems.cons (SVal.prim s) rest) => by simp [buildField, fieldDepth, svalDepth]
  | SVal.arr (SElems.cons (SVal.num n) rest) => by simp [buildField, fieldDepth, svalDepth]
  | SVal.arr (SElems.cons (SVal.bool b) rest) => by simp [buildField, fieldDepth, svalDepth]
  | SVal.arr (SElems.cons SVal.null rest) => by simp [buildField, fieldDepth, svalDepth]
  | SVal.arr (SElems.cons (SVal.arr es) rest) => by simp [buildField, fieldDepth, svalDepth]
termination_by structural v
end

/-- C1: the claim states that for every schema description, every field of
the built model is optional with a null default and carries a description
of the form "Ext f" or "Ext list f", on both request surfaces.  The
interactive builder `create_dynamic_schema` refutes this: its fields are
required (no `Optional` wrapper, no default) and carry the user-supplied
description.  This counterexample exhibits the built model for a
one-field configuration. -/
theorem C1_interactive_counterexample :
    recordOk (create_dynamic_schema [("name", ⟨some PrimTy.str, some "Person name"⟩)]) = false
  ∧ create_dynamic_schema [("name", ⟨some PrimTy.str, some "Person name"⟩)]
      = RecordDef.mk "DynamicExtraction"
          (FieldList.cons "name"
            (FieldDef.mk (FieldTy.scalar PrimTy.str) false false "Person name")
            FieldList.nil) :=
  ⟨rfl, rfl⟩

/-- C1 (amended): for every schema description, every field of the model
built by the network schema builder `build_schema` — at every nesting
level — is optional with a null default and carries the description
"Ext f" (mapping and primitive fields) or "Ext list f" (list fields). -/
theorem C1_network_all_optional (schema : SFields) (name : String) :
    recordOk (build_schema schema name) = true :=
  fieldListOk_build name schema

/-- C1 witness: the amended theorem evaluated on the default schema. -/
theorem C1_witness : recordOk (build_schema defaultSchemaDict "Ext") = true :=
  C1_network_all_optional defaultSchemaDict "Ext"

/-- C2: type-token resolution is case-insensitive (it only depends on the
lowercased token), maps "int", "float" and "list" to the corresponding
types, and everything else — including "str" and unknown tokens such as
"date" — to the generic text type, without any failure path; the
interactive lookup of `main.py` agrees with the network lookup on every
stripped token, and the same resolver is applied at every nesting level
through `buildField`. -/
theorem C2_type_resolution :
    (∀ t₁ t₂ : String, pyLower t₁ = pyLower t₂ → resolveToken t₁ = resolveToken t₂)
  ∧ (resolveToken "int" = PrimTy.int ∧ resolveToken "INT" = PrimTy.int
     ∧ resolveToken "float" = PrimTy.float ∧ resolveToken "FLOAT" = PrimTy.float
     ∧ resolveToken "list" = PrimTy.list ∧ resolveToken "List" = PrimTy.list
     ∧ resolveToken "str" = PrimTy.str ∧ resolveToken "date" = PrimTy.str)
  ∧ (∀ t : String, pyLower t ≠ "int" → pyLower t ≠ "float" → pyLower t ≠ "list" →
      resolveToken t = PrimTy.str)
  ∧ (∀ s : String, interactiveResolve s = resolveToken (pyStrip s))
  ∧ (∀ name k t : String,
      fieldTyOf (buildField name k (SVal.prim t)) = FieldTy.scalar (resolveToken t)) := by
  refine ⟨?_, ⟨rfl, by decide, rfl, by decide, rfl, by decide, rfl, by decide⟩, ?_, ?_, ?_⟩
  · intro t₁ t₂ h
    simp only [resolveToken, h]
  · intro t h1 h2 h3
    simp only [resolveToken, if_neg h1, if_neg h2, if_neg h3]
  · intro s
    simp only [interactiveResolve, resolveToken]
    split_ifs <;> simp_all
  · intro name k t
    rfl

/-- C2 witness: the resolution conjuncts evaluated at concrete tokens. -/
theorem C2_witness :
    resolveToken "Date" = PrimTy.str ∧ resolveToken "FLoat" = resolveToken "floAT" :=
  ⟨C2_type_resolution.2.2.1 "Date" (by decide) (by decide) (by decide),
   C2_type_resolution.1 "FLoat" "floAT" (by decide)⟩

/-- C4: a field whose value is the empty list falls through to the
primitive-token branch: `str([])` is the literal "[]", which the type map
does not recognise, so the field resolves to the generic text type — an
optional string field with the usual description — and no error is
raised (the builder is total on this input). -/
theorem C4_empty_list_fallback :
    (∀ name k : String,
        buildField name k (SVal.arr SElems.nil)
          = FieldDef.mk (FieldTy.scalar PrimTy.str) true true ("Ext " ++ k))
  ∧ pyStr (SVal.arr SElems.nil) = "[]"
  ∧ resolveToken "[]" = PrimTy.str :=
  ⟨fun _ _ => rfl, rfl, rfl⟩

/-- C4 witness: the empty-list fallback evaluated at a concrete field. -/
theorem C4_witness :
    buildField "Ext" "tags" (SVal.arr SElems.nil)
      = FieldDef.mk (FieldTy.scalar PrimTy.str) true true ("Ext " ++ "tags") :=
  C4_empty_list_fallback.1 "Ext" "tags"

/-- C3: the claim asserts that generated nested-model names are
collision-free across sibling branches.  Refutation: under parent name
"Ext", a mapping field named "a_i" and a list-of-mapping field named "a"
are distinct siblings yet both generate the nested-model name "Ext_a_i". -/
theorem C3_sibling_name_collision :
    nestedName (buildField "Ext" "a_i" (SVal.dict SFields.nil)) = some "Ext_a_i"
  ∧ nestedName (buildField "Ext" "a" (SVal.arr (SElems.cons (SVal.dict SFields.nil) SElems.nil)))
      = some "Ext_a_i"
  ∧ ("a_i" : String) ≠ "a" :=
  ⟨rfl, rfl, by decide⟩

/-- C3 (amended): the builder preserves nesting depth exactly (the built
model has exactly as many nested record levels as the description), a
mapping at field f under parent name n yields a nested record named n_f,
a sequence whose element is a mapping yields an optional list of a nested
record named n_f_i, and names are collision-free among sibling mapping
fields and among sibling list fields (though a mapping sibling named
f ++ "_i" collides with a list sibling named f, per the counterexample). -/
theorem C3_depth_and_naming :
    (∀ (fs : SFields) (name : String), recDepth (build_schema fs name) = descDepth fs)
  ∧ (∀ (name f : String) (fs : SFields),
       buildField name f (SVal.dict fs)
         = FieldDef.mk (FieldTy.record (build_schema fs (name ++ "_" ++ f))) true true
             ("Ext " ++ f))
  ∧ (∀ (name f : String) (fs : SFields),
       buildField name f (SVal.arr (SElems.cons (SVal.dict fs) SElems.nil))
         = FieldDef.mk (FieldTy.listOf (build_schema fs (name ++ "_" ++ f ++ "_i"))) true true
             ("Ext list " ++ f))
  ∧ (∀ (name f₁ f₂ : String) (fs₁ fs₂ : SFields), f₁ ≠ f₂ →
       nestedName (buildField name f₁ (SVal.dict fs₁))
         ≠ nestedName (buildField name f₂ (SVal.dict fs₂)))
  ∧ (∀ (name f₁ f₂ : String) (fs₁ fs₂ : SFields) (rest₁ rest₂ : SElems), f₁ ≠ f₂ →
       nestedName (buildField name f₁ (SVal.arr (SElems.cons (SVal.dict fs₁) rest₁)))
         ≠ nestedName (buildField name f₂ (SVal.arr (SElems.cons (SVal.dict fs₂) rest₂)))) := by
  refine ⟨?_, fun _ _ _ => rfl, fun _ _ _ => rfl, ?_, ?_⟩
  · intro fs name
    have h := fieldListDepth_build name fs
    simp [build_schema, recDepth, descDepth, h]
  · intro name f₁ f₂ fs₁ fs₂ hne h
    apply hne
    have h2 : some (name ++ "_" ++ f₁) = some (name ++ "_" ++ f₂) := h
    exact strAppend_left_cancel (Option.some.inj h2)
  · intro name f₁ f₂ fs₁ fs₂ rest₁ rest₂ hne h
    apply hne
    have h2 : some (name ++ "_" ++ f₁ ++ "_i") = some (name ++ "_" ++ f₂ ++ "_i") := h
    exact strAppend_left_cancel (strAppend_right_cancel (Option.some.inj h2))

/-- C3 witness: depth preservation and sibling distinctness evaluated at
concrete inputs — the default schema has depth two, and the sibling
mapping fields "a" and "b" get distinct nested names. -/
theorem C3_witness :
    recDepth (build_schema defaultSchemaDict "Ext") = descDepth defaultSchemaDict
  ∧ nestedName (buildField "Ext" "a" (SVal.dict SFields.nil))
      ≠ nestedName (buildField "Ext" "b" (SVal.dict SFields.nil)) :=
  ⟨C3_depth_and_naming.1 defaultSchemaDict "Ext",
   C3_depth_and_naming.2.2.2.1 "Ext" "a" "b" SFields.nil SFields.nil (by decide)⟩

theorem apiExtract_nonPdf {α : Type} (jloads : String → Option SVal)
    (llm : String → RecordDef → LlmResult α) (req : ApiReq)
    (hname : ['.', 'p', 'd', 'f'].isSuffixOf (pyLower req.filename).data = false) :
    apiExtract jloads llm req = ⟨ApiResult.clientError 400 "Only PDF supported", none, []⟩ := by
  simp [apiExtract, hname]

theorem apiExtract_badJson {α : Type} (jloads : String → Option SVal)
    (llm : String → RecordDef → LlmResult α) (req : ApiReq)
    (hname : ['.', 'p', 'd', 'f'].isSuffixOf (pyLower req.filename).data = true)
    (hparse : jloads (quoteFix (req.schema?.getD defaultSchemaStr)) = none) :
    apiExtract jloads llm req
      = ⟨ApiResult.clientError 400 ("Invalid JSON: " ++ req.schema?.getD defaultSchemaStr),
         none, []⟩ := by
  simp [apiExtract, hname, hparse]

theorem apiExtract_emptyText {α : Type} (jloads : String → Option SVal)
    (llm : String → RecordDef → LlmResult α) (req : ApiReq) (sv : SVal)
    (hname : ['.', 'p', 'd', 'f'].isSuffixOf (pyLower req.filename).data = true)
    (hparse : jloads (quoteFix (req.schema?.getD defaultSchemaStr)) = some sv)
    (htext : pyStrip req.fileText = "") :
    apiExtract jloads llm req = ⟨ApiResult.clientError 422 "No text found", none, []⟩ := by
  simp [apiExtract, hname, hparse, htext]

theorem apiExtract_llm_step {α : Type} (jloads : String → Option SVal)
    (llm : String → RecordDef → LlmResult α) (req : ApiReq) (fs : SFields)
    (hname : ['.', 'p', 'd', 'f'].isSuffixOf (pyLower req.filename).data = true)
    (hparse : jloads (quoteFix (req.schema?.getD defaultSchemaStr)) = some (SVal.dict fs))
    (htext : pyStrip req.fileText ≠ "") :
    apiExtract jloads llm req
      = (match llm (apiPrompt req.fileText) (build_schema fs) with
         | LlmResult.ok a =>
             ⟨ApiResult.ok a, some (build_schema fs),
               [(apiPrompt req.fileText, build_schema fs)]⟩
         | LlmResult.validationError m =>
             ⟨ApiResult.serverError 500 m, some (build_schema fs),
               [(apiPrompt req.fileText, build_schema fs)]⟩
         | LlmResult.otherError m =>
             ⟨ApiResult.serverError 500 m, some (build_schema fs),
               [(apiPrompt req.fileText, build_schema fs)]⟩) := by
  simp [apiExtract, hname, hparse, htext, build_schema]

theorem apiExtract_default {α : Type} (jloads : String → Option SVal)
    (llm : String → RecordDef → LlmResult α) (fn ft : String) :
    apiExtract jloads llm ⟨fn, ft, none⟩ = apiExtract jloads llm ⟨fn, ft, some defaultSchemaStr⟩ :=
  rfl

/-- C5: the claim states that an empty schema description short-circuits
before the LLM backend on both request surfaces.  Refutation: the network
endpoint has no such check — on a request whose schema form field is the
empty JSON object, the pipeline builds an empty model and issues an LLM
call (the trace holds exactly one invocation). -/
theorem C5_network_no_short_circuit :
    (apiExtract jsonParse (fun _ _ => (LlmResult.ok () : LlmResult Unit)) ⟨"doc.pdf", "hello", some "\x7b\x7d"⟩).llmCalls
      = [(apiPrompt "hello", build_schema SFields.nil "Ext")] :=
  rfl

/-- C5 (amended): the interactive surface short-circuits on an empty field
configuration — it reports the message containing "No fields defined",
builds no model and issues no LLM call — while the network endpoint,
given the empty-object schema, proceeds to build the empty model and
issues exactly one LLM call. -/
theorem C5_empty_schema_behavior :
    (∀ (α : Type) (llm : String → RecordDef → LlmResult α) (fileText : Except PdfErr String),
        mainRun llm [] fileText = ⟨CliOutcome.noFields, none, []⟩)
  ∧ cliMessageOf (CliOutcome.noFields : CliOutcome Unit) = some "\n⚠ No fields defined. Exiting."
  ∧ strContains "\n⚠ No fields defined. Exiting." "No fields defined"
  ∧ (∀ (α : Type) (llm : String → RecordDef → LlmResult α) (text : String),
        pyStrip text ≠ "" →
        (apiExtract jsonParse llm ⟨"doc.pdf", text, some "\x7b\x7d"⟩).llmCalls
          = [(apiPrompt text, build_schema SFields.nil "Ext")]) := by
  refine ⟨fun _ _ _ => rfl, rfl, ⟨"\n⚠ ".data, ". Exiting.".data, by rfl⟩, ?_⟩
  intro α llm text htext
  rw [apiExtract_llm_step jsonParse llm ⟨"doc.pdf", text, some "\x7b\x7d"⟩ SFields.nil rfl rfl htext]
  cases llm (apiPrompt text) (build_schema SFields.nil) <;> rfl

/-- C5 witness: the network-endpoint conjunct evaluated at concrete text. -/
theorem C5_witness :
    (apiExtract jsonParse (fun _ _ => (LlmResult.otherError "down" : LlmResult Unit)) ⟨"doc.pdf", "hi", some "\x7b\x7d"⟩).llmCalls
      = [(apiPrompt "hi", build_schema SFields.nil "Ext")] :=
  C5_empty_schema_behavior.2.2.2 Unit (fun _ _ => LlmResult.otherError "down") "hi" (by decide)

/-- C6: the claim states that a document with empty trimmed text fails
with the extraction-empty error before any LLM call on both request
surfaces.  Refutation: the interactive surface performs no emptiness
check — with a non-empty field configuration and an extracted text that
is empty (and empty after stripping), the schema is built, the LLM is
invoked on the empty text, and the run completes. -/
theorem C6_interactive_no_empty_check :
    pyStrip "" = ""
  ∧ (mainRun (fun _ _ => (LlmResult.ok () : LlmResult Unit))
        [("total", ⟨some PrimTy.float, some "d"⟩)] (Except.ok "")).llmCalls
      = [(cliPrompt "", create_dynamic_schema [("total", ⟨some PrimTy.float, some "d"⟩)])]
  ∧ (mainRun (fun _ _ => (LlmResult.ok () : LlmResult Unit))
        [("total", ⟨some PrimTy.float, some "d"⟩)] (Except.ok "")).builtSchema
      = some (create_dynamic_schema [("total", ⟨some PrimTy.float, some "d"⟩)]) :=
  ⟨rfl, rfl, rfl⟩

/-- C6 (amended): on the network endpoint, a request whose extracted text
is empty after stripping is rejected with the 422 "No text found" error
before the schema builder runs and before any LLM call; the interactive
surface has no such check and issues its LLM call even on empty text. -/
theorem C6_empty_text_behavior :
    (∀ (α : Type) (jloads : String → Option SVal) (llm : String → RecordDef → LlmResult α)
        (req : ApiReq) (sv : SVal),
        ['.', 'p', 'd', 'f'].isSuffixOf (pyLower req.filename).data = true →
        jloads (quoteFix (req.schema?.getD defaultSchemaStr)) = some sv →
        pyStrip req.fileText = "" →
        apiExtract jloads llm req = ⟨ApiResult.clientError 422 "No text found", none, []⟩)
  ∧ (∀ (α : Type) (llm : String → RecordDef → LlmResult α) (k : String) (fc : FieldCfg)
        (rest : List (String × FieldCfg)),
        (mainRun llm ((k, fc) :: rest) (Except.ok "")).llmCalls
          = [(cliPrompt "", create_dynamic_schema ((k, fc) :: rest))]) :=
  ⟨fun _ jloads llm req sv hname hparse htext =>
      apiExtract_emptyText jloads llm req sv hname hparse htext,
   fun _ _ _ _ _ => rfl⟩

/-- C6 witness: the network-endpoint conjunct evaluated on a concrete
request whose file text is whitespace only. -/
theorem C6_witness :
    apiExtract jsonParse (fun _ _ => (LlmResult.ok () : LlmResult Unit)) ⟨"doc.pdf", "  \n ", some "\x7b\x7d"⟩
      = ⟨ApiResult.clientError 422 "No text found", none, []⟩ :=
  C6_empty_text_behavior.1 Unit jsonParse (fun _ _ => LlmResult.ok ())
    ⟨"doc.pdf", "  \n ", some "\x7b\x7d"⟩ (SVal.dict SFields.nil) rfl rfl rfl

/-- C7: the claim states that the endpoint rejects every malformed schema
JSON string with a client error.  Refutation: the single-quoted
pseudo-JSON schema is malformed JSON (the decoder rejects it as
received), yet the endpoint accepts it, because the quote replacement
applied before decoding turns it into valid JSON; the run completes
without a client error. -/
theorem C7_malformed_schema_accepted :
    jsonParse sqVendorSchema = none
  ∧ (apiExtract jsonParse (fun _ _ => (LlmResult.ok () : LlmResult Unit))
        ⟨"doc.pdf", "text", some sqVendorSchema⟩).result = ApiResult.ok () :=
  ⟨rfl, rfl⟩

/-- C7 (amended): the endpoint rejects every upload whose lowercased
filename does not end in ".pdf" with a 400 client error carrying
"Only PDF supported", before any schema decoding or LLM call; it rejects
every schema string that is still malformed after the single-quote
replacement with a 400 client error carrying the offending original
input; when the schema form field is omitted it behaves exactly as if the
default schema string had been supplied, and that default decodes to the
default schema dict; and any failure of the LLM phase is reported as a
500 server error carrying the underlying message. -/
theorem C7_endpoint_errors :
    (∀ (α : Type) (jloads : String → Option SVal) (llm : String → RecordDef → LlmResult α)
        (req : ApiReq),
        ['.', 'p', 'd', 'f'].isSuffixOf (pyLower req.filename).data = false →
        apiExtract jloads llm req = ⟨ApiResult.clientError 400 "Only PDF supported", none, []⟩)
  ∧ (∀ (α : Type) (jloads : String → Option SVal) (llm : String → RecordDef → LlmResult α)
        (req : ApiReq),
        ['.', 'p', 'd', 'f'].isSuffixOf (pyLower req.filename).data = true →
        jloads (quoteFix (req.schema?.getD defaultSchemaStr)) = none →
        apiExtract jloads llm req
          = ⟨ApiResult.clientError 400 ("Invalid JSON: " ++ req.schema?.getD defaultSchemaStr),
             none, []⟩)
  ∧ (∀ (α : Type) (jloads : String → Option SVal) (llm : String → RecordDef → LlmResult α)
        (fn ft : String),
        apiExtract jloads llm ⟨fn, ft, none⟩ = apiExtract jloads llm ⟨fn, ft, some defaultSchemaStr⟩)
  ∧ quoteFix defaultSchemaStr = defaultSchemaStr
  ∧ jsonParse defaultSchemaStr = some (SVal.dict defaultSchemaDict)
  ∧ (∀ (α : Type) (jloads : String → Option SVal) (llm : String → RecordDef → LlmResult α)
        (req : ApiReq) (fs : SFields) (m : String),
        ['.', 'p', 'd', 'f'].isSuffixOf (pyLower req.filename).data = true →
        jloads (quoteFix (req.schema?.getD defaultSchemaStr)) = some (SVal.dict fs) →
        pyStrip req.fileText ≠ "" →
        llm (apiPrompt req.fileText) (build_schema fs) = LlmResult.validationError m ∨
          llm (apiPrompt req.fileText) (build_schema fs) = LlmResult.otherError m →
        (apiExtract jloads llm req).result = ApiResult.serverError 500 m) := by
  refine ⟨fun _ => apiExtract_nonPdf, fun _ => apiExtract_badJson,
    fun _ jloads llm fn ft => apiExtract_default jloads llm fn ft, rfl, rfl, ?_⟩
  intro α jloads llm req fs m hname hparse htext hllm
  rw [apiExtract_llm_step jloads llm req fs hname hparse htext]
  rcases hllm with h | h <;> rw [h]

/-- C7 witness: the rejection conjuncts evaluated at concrete requests —
a .txt upload, and a schema string that is malformed even after quote
replacement. -/
theorem C7_witness :
    apiExtract jsonParse (fun _ _ => (LlmResult.ok () : LlmResult Unit)) ⟨"doc.txt", "text", some "\x7b\x7d"⟩
      = ⟨ApiResult.clientError 400 "Only PDF supported", none, []⟩
  ∧ apiExtract jsonParse (fun _ _ => (LlmResult.ok () : LlmResult Unit)) ⟨"doc.pdf", "text", some "notjson"⟩
      = ⟨ApiResult.clientError 400 ("Invalid JSON: " ++ "notjson"), none, []⟩ :=
  ⟨C7_endpoint_errors.1 Unit jsonParse (fun _ _ => LlmResult.ok ())
      ⟨"doc.txt", "text", some "\x7b\x7d"⟩ rfl,
   C7_endpoint_errors.2.1 Unit jsonParse (fun _ _ => LlmResult.ok ())
      ⟨"doc.pdf", "text", some "notjson"⟩ rfl rfl⟩

/-- C8: the claim states that output-validation failures are surfaced
distinctly from transport failures on both request surfaces.
Refutation: on the network endpoint the two failure classes are
indistinguishable — an LLM oracle failing with a validation error and one
failing with a transport error, both carrying the message "boom", produce
byte-identical runs (HTTP 500 with the bare message). -/
theorem C8_network_indistinguishable :
    apiExtract jsonParse (fun _ _ => (LlmResult.validationError "boom" : LlmResult Unit))
        ⟨"doc.pdf", "text", some "\x7b\x7d"⟩
      = apiExtract jsonParse (fun _ _ => (LlmResult.otherError "boom" : LlmResult Unit))
          ⟨"doc.pdf", "text", some "\x7b\x7d"⟩
  ∧ (apiExtract jsonParse (fun _ _ => (LlmResult.validationError "boom" : LlmResult Unit))
        ⟨"doc.pdf", "text", some "\x7b\x7d"⟩).result = ApiResult.serverError 500 "boom" :=
  ⟨rfl, rfl⟩

/-- C8 (amended): the interactive surface does distinguish the two
failure classes — a pydantic validation failure is re-raised as a
ValueError prefixed "Data validation error: " while any other failure is
re-raised as a plain Exception prefixed "Error during LLM extraction: ",
and the two error shapes are never equal — whereas the network endpoint
maps both classes to the same 500 response carrying only the message, so
there the distinction is lost. -/
theorem C8_error_classes :
    (∀ (α : Type) (llm : String → RecordDef → LlmResult α) (text : String) (model : RecordDef)
        (m : String),
        llm (cliPrompt text) model = LlmResult.validationError m →
        extract_json_from_text llm text model
          = Except.error (CliError.valueError ("Data validation error: " ++ m)))
  ∧ (∀ (α : Type) (llm : String → RecordDef → LlmResult α) (text : String) (model : RecordDef)
        (m : String),
        llm (cliPrompt text) model = LlmResult.otherError m →
        extract_json_from_text llm text model
          = Except.error (CliError.exception ("Error during LLM extraction: " ++ m)))
  ∧ (∀ m₁ m₂ : String, CliError.valueError m₁ ≠ CliError.exception m₂)
  ∧ (∀ (α : Type) (jloads : String → Option SVal)
        (llm₁ llm₂ : String → RecordDef → LlmResult α) (req : ApiReq) (fs : SFields)
        (m : String),
        ['.', 'p', 'd', 'f'].isSuffixOf (pyLower req.filename).data = true →
        jloads (quoteFix (req.schema?.getD defaultSchemaStr)) = some (SVal.dict fs) →
        pyStrip req.fileText ≠ "" →
        llm₁ (apiPrompt req.fileText) (build_schema fs) = LlmResult.validationError m →
        llm₂ (apiPrompt req.fileText) (build_schema fs) = LlmResult.otherError m →
        apiExtract jloads llm₁ req = apiExtract jloads llm₂ req) := by
  refine ⟨?_, ?_, fun m₁ m₂ h => CliError.noConfusion h, ?_⟩
  · intro α llm text model m h
    simp [extract_json_from_text, h]
  · intro α llm text model m h
    simp [extract_json_from_text, h]
  · intro α jloads llm₁ llm₂ req fs m hname hparse htext h1 h2
    rw [apiExtract_llm_step jloads llm₁ req fs hname hparse htext,
        apiExtract_llm_step jloads llm₂ req fs hname hparse htext, h1, h2]

/-- C8 witness: the interactive distinction evaluated at concrete oracles
returning each failure class. -/
theorem C8_witness :
    extract_json_from_text (fun _ _ => (LlmResult.validationError "bad shape" : LlmResult Unit))
        "text" (build_schema SFields.nil "Ext")
      = Except.error (CliError.valueError ("Data validation error: " ++ "bad shape"))
  ∧ extract_json_from_text (fun _ _ => (LlmResult.otherError "rate limited" : LlmResult Unit))
        "text" (build_schema SFields.nil "Ext")
      = Except.error (CliError.exception ("Error during LLM extraction: " ++ "rate limited")) :=
  ⟨C8_error_classes.1 Unit (fun _ _ => LlmResult.validationError "bad shape") "text"
      (build_schema SFields.nil "Ext") "bad shape" rfl,
   C8_error_classes.2.1 Unit (fun _ _ => LlmResult.otherError "rate limited") "text"
      (build_schema SFields.nil "Ext") "rate limited" rfl⟩

/-- C9: the claim states that on both request surfaces the prompt embeds
the document text and carries the instruction to extract only explicitly
present information, never fabricate, and default missing fields to null.
Refutation: the interactive prompt is exactly the bare sentence below
followed by the text, and it does not contain the anti-fabrication
directive — shown here by the absence of the letter u, which occurs in
the word hallucinate but nowhere in the interactive prompt for the
document text "T". -/
theorem C9_cli_prompt_lacks_directive :
    cliPrompt "T" = "Extract data from the following text:\n\nT"
  ∧ ¬ strContains (cliPrompt "T") "DO NOT hallucinate" := by
  refine ⟨rfl, ?_⟩
  rintro ⟨a, b, h⟩
  have hu : 'u' ∈ (cliPrompt "T").data := by
    rw [h]
    have hm : 'u' ∈ "DO NOT hallucinate".data := by decide
    simp [List.mem_append, hm]
  revert hu
  decide

/-- C9 (amended): the network prompt embeds the full document text and
contains the directives to extract only explicitly present information,
not to fabricate or hallucinate, and to use null or empty values for
missing fields, and the endpoint issues exactly one LLM request per
invocation; the interactive prompt also embeds the full text and is also
issued exactly once per invocation, but carries no such directive. -/
theorem C9_prompt_and_single_call :
    (∀ text : String, strContains (apiPrompt text) text)
  ∧ (∀ text : String,
      strContains (apiPrompt text) "ONLY extract information that is explicitly present")
  ∧ (∀ text : String, strContains (apiPrompt text) "DO NOT make it up. DO NOT hallucinate.")
  ∧ (∀ text : String, strContains (apiPrompt text) "use null or an empty value")
  ∧ (∀ text : String, strContains (cliPrompt text) text)
  ∧ (∀ (α : Type) (jloads : String → Option SVal) (llm : String → RecordDef → LlmResult α)
        (req : ApiReq) (fs : SFields),
        ['.', 'p', 'd', 'f'].isSuffixOf (pyLower req.filename).data = true →
        jloads (quoteFix (req.schema?.getD defaultSchemaStr)) = some (SVal.dict fs) →
        pyStrip req.fileText ≠ "" →
        (apiExtract jloads llm req).llmCalls = [(apiPrompt req.fileText, build_schema fs)])
  ∧ (∀ (α : Type) (llm : String → RecordDef → LlmResult α) (k : String) (fc : FieldCfg)
        (rest : List (String × FieldCfg)) (text : String),
        (mainRun llm ((k, fc) :: rest) (Except.ok text)).llmCalls
          = [(cliPrompt text, create_dynamic_schema ((k, fc) :: rest))]) := by
  refine ⟨?_, ?_, ?_, ?_, ?_, ?_, fun _ _ _ _ _ _ => rfl⟩
  · intro text
    refine strContains_of_parts _ _
      (("SYSTEM: You are a strict data extractor. ONLY extract information that is explicitly present in the provided text. " ++
        "If a piece of information is not found in the text, DO NOT make it up. DO NOT hallucinate. " ++
        "If the schema requires a field that is missing from the text, use null or an empty value as appropriate for the type. " ++
        "Strictly follow the source text.\n\n" ++ "Source Text:\n").data)
      (("\n\n" ++ "Extract the following data based on the source text above.").data) ?_
    simp only [apiPrompt, strData_append, List.append_assoc]
  · intro text
    refine strContains_of_parts _ _ ("SYSTEM: You are a strict data extractor. ".data)
      ((" in the provided text. " ++
        "If a piece of information is not found in the text, DO NOT make it up. DO NOT hallucinate. " ++
        "If the schema requires a field that is missing from the text, use null or an empty value as appropriate for the type. " ++
        "Strictly follow the source text.\n\n" ++ "Source Text:\n" ++ text ++ "\n\n" ++
        "Extract the following data based on the source text above.").data) ?_
    simp only [apiPrompt, strData_append, List.append_assoc]
    rfl
  · intro text
    refine strContains_of_parts _ _
      (("SYSTEM: You are a strict data extractor. ONLY extract information that is explicitly present in the provided text. " ++
        "If a piece of information is not found in the text, ").data)
      ((" " ++
        "If the schema requires a field that is missing from the text, use null or an empty value as appropriate for the type. " ++
        "Strictly follow the source text.\n\n" ++ "Source Text:\n" ++ text ++ "\n\n" ++
        "Extract the following data based on the source text above.").data) ?_
    simp only [apiPrompt, strData_append, List.append_assoc]
    rfl
  · intro text
    refine strContains_of_parts _ _
      (("SYSTEM: You are a strict data extractor. ONLY extract information that is explicitly present in the provided text. " ++
        "If a piece of information is not found in the text, DO NOT make it up. DO NOT hallucinate. " ++
        "If the schema requires a field that is missing from the text, ").data)
      ((" as appropriate for the type. " ++
        "Strictly follow the source text.\n\n" ++ "Source Text:\n" ++ text ++ "\n\n" ++
        "Extract the following data based on the source text above.").data) ?_
    simp only [apiPrompt, strData_append, List.append_assoc]
    rfl
  · intro text
    refine strContains_of_parts _ _ ("Extract data from the following text:\n\n".data) ([]) ?_
    simp only [cliPrompt, strData_append, List.append_nil]
  · intro α jloads llm req fs hname hparse htext
    rw [apiExtract_llm_step jloads llm req fs hname hparse htext]
    cases llm (apiPrompt req.fileText) (build_schema fs) <;> rfl

/-- C9 witness: the one-call and containment conjuncts evaluated at a
concrete request. -/
theorem C9_witness :
    (apiExtract jsonParse (fun _ _ => (LlmResult.ok () : LlmResult Unit))
        ⟨"doc.pdf", "Invoice 42", some "\x7b\x7d"⟩).llmCalls
      = [(apiPrompt "Invoice 42", build_schema SFields.nil)]
  ∧ strContains (apiPrompt "Invoice 42") "Invoice 42" :=
  ⟨C9_prompt_and_single_call.2.2.2.2.2.1 Unit jsonParse (fun _ _ => LlmResult.ok ())
      ⟨"doc.pdf", "Invoice 42", some "\x7b\x7d"⟩ SFields.nil rfl rfl (by decide),
   C9_prompt_and_single_call.1 "Invoice 42"⟩

/-- C10: the schema string received by the endpoint has every single-quote
character replaced by a double quote before JSON decoding: the
replacement is the character-wise map shown, its output never contains a
single quote, single-quoted pseudo-JSON (malformed as received) is
accepted and decodes to the intended dict, while a valid JSON schema
carrying a legitimate apostrophe inside a value is altered by the
replacement, fails to decode, and is rejected with the 400 error carrying
the original input. -/
theorem C10_quote_replacement :
    (∀ s : String, (quoteFix s).data = s.data.map (fun c => if c = squote then '"' else c))
  ∧ (∀ (s : String) (c : Char), c ∈ (quoteFix s).data → c ≠ squote)
  ∧ jsonParse sqVendorSchema = none
  ∧ jsonParse (quoteFix sqVendorSchema)
      = some (SVal.dict (SFields.cons "vendor" (SVal.prim "str") SFields.nil))
  ∧ (apiExtract jsonParse (fun _ _ => (LlmResult.ok () : LlmResult Unit))
        ⟨"doc.pdf", "text", some sqVendorSchema⟩).result = ApiResult.ok ()
  ∧ jsonParse aposSchema
      = some (SVal.dict (SFields.cons "note" (SVal.prim ("it" ++ squoteStr ++ "s")) SFields.nil))
  ∧ jsonParse (quoteFix aposSchema) = none
  ∧ apiExtract jsonParse (fun _ _ => (LlmResult.ok () : LlmResult Unit))
        ⟨"doc.pdf", "text", some aposSchema⟩
      = ⟨ApiResult.clientError 400 ("Invalid JSON: " ++ aposSchema), none, []⟩ := by
  refine ⟨fun s => rfl, ?_, rfl, rfl, rfl, rfl, rfl, rfl⟩
  intro s c hc
  rw [quoteFix] at hc
  rw [show (String.mk (s.data.map (fun c => if c = squote then '"' else c))).data
        = s.data.map (fun c => if c = squote then '"' else c) from rfl,
      List.mem_map] at hc
  obtain ⟨a, _, rfl⟩ := hc
  by_cases ha : a = squote
  · simp only [ha, if_pos rfl]
    decide
  · simp only [if_neg ha]
    exact ha

/-- C10 witness: the no-single-quote-left conjunct evaluated at a concrete
character of the replaced pseudo-JSON schema. -/
theorem C10_witness : ('v' : Char) ≠ squote :=
  C10_quote_replacement.2.1 sqVendorSchema 'v' (by decide)
